import Mathlib

/-!
Verification of the grant-statement reconciliation pipeline (`finance.py`).

The pipeline is shallowly embedded: a ledger is a list of typed rows (the
table after the G/L filter and numeric coercion of the `Open Items` and
`Invoice` columns, so a coercion failure is `none`); the pandas
groupby/merge/apply steps become pure functions over that list; monetary
values are exact rationals.
-/

set_option maxRecDepth 4000

namespace Finance

/-- One ledger row after G/L filtering and numeric coercion
(`df = df[df['G/L'].notna()]`, `pd.to_numeric(..., errors='coerce')`).
`postingDate` is the row's posting date as a day number (`none` models
NaT, i.e. a date `pd.to_datetime(..., errors='coerce')` failed on). -/
structure Row where
  postingDate : Option Int
  text : String
  openItems : Option ℚ
  invoice : Option ℚ
deriving DecidableEq, Repr

/-- The six statuses assigned by the classifier's `status` function. -/
inductive Status
  | invoicedWithoutBalancing
  | uninvoiced
  | multipleInvoices
  | invoiced
  | ambiguousReservationCodes
  | check
deriving DecidableEq, Repr

/-- Two-decimal rounding, embedding pandas `.round(2)`.  (numpy rounds
half to even on the underlying float; the tie-breaking mode is not
load-bearing for any property below, so the standard half-up rounding of
the exact rational is used.) -/
def round2 (q : ℚ) : ℚ := (⌊100 * q + 1/2⌋ : ℚ) / 100

/-- `reservations = df[df['Open Items'].notna() & (df['Open Items'] != 0)]`. -/
def reservationRows (rows : List Row) : List Row :=
  rows.filter (fun r => r.openItems.isSome && decide (r.openItems.getD 0 ≠ 0))

/-- `invoices = df[df['Invoice'].notna() & (df['Invoice'] != 0)]`. -/
def invoiceRows (rows : List Row) : List Row :=
  rows.filter (fun r => r.invoice.isSome && decide (r.invoice.getD 0 ≠ 0))

/-- `reservations.groupby('Text')['Open Items'].sum()` evaluated at one
group key: the net reservation amount of the group named `t`. -/
def netAmount (rows : List Row) (t : String) : ℚ :=
  (((reservationRows rows).filter (fun r => r.text == t)).map
    (fun r => r.openItems.getD 0)).sum

/-- The group keys of the classified table `res_out`: the distinct texts
of reservation rows whose summed `Open Items` is nonzero
(`res_out = reservation_summary[reservation_summary['Net Reservation Amount'] != 0]`). -/
def resOutTexts (rows : List Row) : List String :=
  (((reservationRows rows).map (fun r => r.text)).dedup).filter
    (fun t => decide (netAmount rows t ≠ 0))

/-- The `Invoice Count` column of `res_out`: the number of invoice rows
whose rounded amount equals the group's rounded net amount
(`invoices['InvAmtRnd'].value_counts()` left-merged on `InvAmtRnd`,
missing counts filled with 0). -/
def invoiceCountOf (rows : List Row) (t : String) : ℕ :=
  ((invoiceRows rows).filter
    (fun r => decide (round2 (r.invoice.getD 0) = round2 (netAmount rows t)))).length

/-- The `Reservation Codes Count` column: how many `res_out` groups
(including `t` itself) share the rounded net amount
(`res_out.groupby('InvAmtRnd')['Text'].count()`). -/
def codesCountOf (rows : List Row) (t : String) : ℕ :=
  ((resOutTexts rows).filter
    (fun u => decide (round2 (netAmount rows u) = round2 (netAmount rows t)))).length

/-- The row-wise `status` function of `finance.py`, branch for branch. -/
def status (net : ℚ) (ic rc : ℕ) : Status :=
  if net ≠ 0 ∧ 0 < ic then .invoicedWithoutBalancing
  else if ic = 0 then .uninvoiced
  else if rc < ic then .multipleInvoices
  else if ic = rc ∧ rc = 1 then .invoiced
  else if ic = 1 ∧ 1 < rc then .ambiguousReservationCodes
  else .check

/-- The `Status` column of `res_out` at group `t`. -/
def statusOf (rows : List Row) (t : String) : Status :=
  status (netAmount rows t) (invoiceCountOf rows t) (codesCountOf rows t)

/-- One row of the classified output table (`res_out`). -/
structure ClassifiedGroup where
  text : String
  netAmount : ℚ
  invoiceCount : ℕ
  codesCount : ℕ
  status : Status
deriving DecidableEq, Repr

/-- The classified reservation table shown as "Pending Invoices and Errors". -/
def classifiedTable (rows : List Row) : List ClassifiedGroup :=
  (resOutTexts rows).map (fun t =>
    ⟨t, netAmount rows t, invoiceCountOf rows t, codesCountOf rows t, statusOf rows t⟩)

/-- Membership in `res_out` forces a nonzero net amount (the `!= 0` filter). -/
theorem netAmount_ne_zero_of_mem_resOut {rows : List Row} {t : String}
    (h : t ∈ resOutTexts rows) : netAmount rows t ≠ 0 := by
  have := List.of_mem_filter h
  exact of_decide_eq_true this

/-- C2: a group with nonzero net amount and a positive invoice count is
always classified `Invoiced without Balancing Open Items`, whatever the
reservation-codes count is (rule 1 of `status` fires first). -/
theorem status_unbalanced_of_pos_count (net : ℚ) (ic rc : ℕ)
    (h1 : net ≠ 0) (h2 : 0 < ic) :
    status net ic rc = Status.invoicedWithoutBalancing := by
  unfold status
  rw [if_pos ⟨h1, h2⟩]

/-- Witness for C2 at net = 5, invoice count 2, codes count 7. -/
theorem status_unbalanced_of_pos_count_witness :
    (5 : ℚ) ≠ 0 ∧ 0 < 2 ∧ status 5 2 7 = Status.invoicedWithoutBalancing :=
  ⟨by norm_num, by norm_num,
    status_unbalanced_of_pos_count 5 2 7 (by norm_num) (by norm_num)⟩

/-- C10: every group of the classified table is `Invoiced without
Balancing Open Items` (positive invoice count) or `Uninvoiced` (zero
invoice count); the other four statuses are unreachable, because the
`!= 0` filter on the net amount makes rule 1 subsume every group with a
positive invoice count. -/
theorem classified_status_dichotomy (rows : List Row) (t : String)
    (h : t ∈ resOutTexts rows) :
    (0 < invoiceCountOf rows t →
      statusOf rows t = Status.invoicedWithoutBalancing) ∧
    (invoiceCountOf rows t = 0 → statusOf rows t = Status.uninvoiced) ∧
    statusOf rows t ≠ Status.invoiced ∧
    statusOf rows t ≠ Status.multipleInvoices ∧
    statusOf rows t ≠ Status.ambiguousReservationCodes ∧
    statusOf rows t ≠ Status.check := by
  have hnet := netAmount_ne_zero_of_mem_resOut h
  unfold statusOf status
  rcases Nat.eq_zero_or_pos (invoiceCountOf rows t) with h0 | hpos
  · rw [h0]
    simp [hnet]
  · rw [if_pos ⟨hnet, hpos⟩]
    exact ⟨fun _ => rfl, fun h0 => absurd h0 (Nat.pos_iff_ne_zero.mp hpos),
      by decide, by decide, by decide, by decide⟩

/-- A ledger with a single uninvoiced reservation, for the C10 witness. -/
def exDichotomy : List Row := [⟨none, "R9", some 7, none⟩]

/-- Witness for C10: the lone group "R9" is in the classified table and,
having invoice count 0, is classified `Uninvoiced`. -/
theorem classified_status_dichotomy_witness :
    statusOf exDichotomy "R9" = Status.uninvoiced :=
  (classified_status_dichotomy exDichotomy "R9"
      (by simp [resOutTexts, netAmount, reservationRows, exDichotomy])).2.1
    (by simp [invoiceCountOf, invoiceRows, exDichotomy])

/-- Scenario B of the spec: one reservation "R200" netting 1000, one
invoice of 1000, no competing group at that amount. -/
def exOneToOne : List Row :=
  [⟨none, "R200", some 1000, none⟩, ⟨none, "SUPPLIER", none, some 1000⟩]

/-- C1 counterexample: with a clean one-to-one amount match
(`invoice_count = reservation_codes_count = 1`) the classifier does NOT
return `Invoiced`: rule 1 fires first and returns `Invoiced without
Balancing Open Items`. -/
theorem one_to_one_match_not_invoiced :
    "R200" ∈ resOutTexts exOneToOne ∧
    invoiceCountOf exOneToOne "R200" = 1 ∧
    codesCountOf exOneToOne "R200" = 1 ∧
    statusOf exOneToOne "R200" ≠ Status.invoiced ∧
    statusOf exOneToOne "R200" = Status.invoicedWithoutBalancing := by
  have hres : resOutTexts exOneToOne = ["R200"] := by
    simp [resOutTexts, netAmount, reservationRows, exOneToOne]
  have hnet : netAmount exOneToOne "R200" = 1000 := by
    simp [netAmount, reservationRows, exOneToOne]
  have hrnd : round2 (netAmount exOneToOne "R200") = 1000 := by
    rw [hnet]; norm_num [round2]
  have h1 : invoiceCountOf exOneToOne "R200" = 1 := by
    simp only [invoiceCountOf, hrnd]
    norm_num [invoiceRows, exOneToOne, round2]
  have h2 : codesCountOf exOneToOne "R200" = 1 := by
    simp [codesCountOf, hres, hrnd]
  have hst : statusOf exOneToOne "R200" = Status.invoicedWithoutBalancing := by
    rw [statusOf, hnet, h1, h2]
    norm_num [status]
  exact ⟨by rw [hres]; exact List.mem_singleton.mpr rfl, h1, h2,
    by rw [hst]; decide, hst⟩

/-- C1 amended: a classified group whose rounded amount is matched by
exactly one invoice and shared by exactly one reservation group is
classified `Invoiced without Balancing Open Items` (not `Invoiced`). -/
theorem one_to_one_match_unbalanced (rows : List Row) (t : String)
    (h : t ∈ resOutTexts rows) (h1 : invoiceCountOf rows t = 1)
    (_h2 : codesCountOf rows t = 1) :
    statusOf rows t = Status.invoicedWithoutBalancing := by
  have hnet := netAmount_ne_zero_of_mem_resOut h
  unfold statusOf status
  rw [if_pos ⟨hnet, by omega⟩]

/-- Witness for the amended C1 on the Scenario B ledger. -/
theorem one_to_one_match_unbalanced_witness :
    ("R200" ∈ resOutTexts exOneToOne ∧
      invoiceCountOf exOneToOne "R200" = 1 ∧
      codesCountOf exOneToOne "R200" = 1) ∧
    statusOf exOneToOne "R200" = Status.invoicedWithoutBalancing := by
  have hres : resOutTexts exOneToOne = ["R200"] := by
    simp [resOutTexts, netAmount, reservationRows, exOneToOne]
  have hm : "R200" ∈ resOutTexts exOneToOne := by
    rw [hres]; exact List.mem_singleton.mpr rfl
  have hnet : netAmount exOneToOne "R200" = 1000 := by
    simp [netAmount, reservationRows, exOneToOne]
  have hrnd : round2 (netAmount exOneToOne "R200") = 1000 := by
    rw [hnet]; norm_num [round2]
  have h1 : invoiceCountOf exOneToOne "R200" = 1 := by
    simp only [invoiceCountOf, hrnd]
    norm_num [invoiceRows, exOneToOne, round2]
  have h2 : codesCountOf exOneToOne "R200" = 1 := by
    simp [codesCountOf, hres, hrnd]
  exact ⟨⟨hm, h1, h2⟩, one_to_one_match_unbalanced exOneToOne "R200" hm h1 h2⟩

/-- A single reservation of 0.001: its net amount rounds to 0.00 at two
decimals but is not exactly zero. -/
def exTinyNet : List Row := [⟨none, "R1", some (1/1000), none⟩]

/-- C3 counterexample: the `res_out` filter drops groups with net amount
exactly 0, not groups whose net amount merely rounds to 0.00, so the
group "R1" (net 0.001, rounded 0.00) still appears in the classified
output. -/
theorem rounds_to_zero_still_listed :
    round2 (netAmount exTinyNet "R1") = 0 ∧ "R1" ∈ resOutTexts exTinyNet := by
  have hnet : netAmount exTinyNet "R1" = 1/1000 := by
    simp [netAmount, reservationRows, exTinyNet]
  constructor
  · rw [hnet]
    norm_num [round2]
  · simp [resOutTexts, netAmount, reservationRows, exTinyNet]

/-- C3 amended: a group whose net amount is exactly zero is discarded by
the summary step and never appears in the classified output. -/
theorem zero_net_excluded (rows : List Row) (t : String)
    (h : netAmount rows t = 0) : t ∉ resOutTexts rows := fun hmem =>
  netAmount_ne_zero_of_mem_resOut hmem h

/-- Two reservation rows for "X" netting to exactly zero, for the C3
witness (Scenario A of the spec). -/
def exOffsetting : List Row :=
  [⟨none, "X", some 500, none⟩, ⟨none, "X", some (-500), none⟩]

/-- Witness for the amended C3: the fully offsetting group "X" has net
amount 0 and is excluded from the classified output. -/
theorem zero_net_excluded_witness :
    netAmount exOffsetting "X" = 0 ∧ "X" ∉ resOutTexts exOffsetting := by
  have h : netAmount exOffsetting "X" = 0 := by
    simp [netAmount, reservationRows, exOffsetting]
  exact ⟨h, zero_net_excluded exOffsetting "X" h⟩

/-- The row of a list at position `i` (the all-`none` row for an index
out of range; only used at in-range indices). -/
def rowAt (invs : List Row) (i : ℕ) : Row := invs.getD i ⟨none, "", none, none⟩

/-- The duplicate key of pandas
`invoices.duplicated(subset=['InvAmtRnd','Text'], keep=False)`: the
rounded invoice amount together with the description text. -/
def dupKeyAt (invs : List Row) (i : ℕ) : ℚ × String :=
  (round2 ((rowAt invs i).invoice.getD 0), (rowAt invs i).text)

/-- `duplicated(..., keep=False)` at row `i`: some other row of the
invoice table carries the same (rounded amount, text) key. -/
def isDupAt (invs : List Row) (i : ℕ) : Bool :=
  (List.range invs.length).any
    (fun j => decide (j ≠ i) && decide (dupKeyAt invs j = dupKeyAt invs i))

/-- The "Duplicated Invoice Charges" table: the invoice rows whose index
is flagged by `isDupAt`. -/
def duplicateTable (rows : List Row) : List Row :=
  ((List.range (invoiceRows rows).length).filter
    (fun i => isDupAt (invoiceRows rows) i)).map (fun i => rowAt (invoiceRows rows) i)

/-- C4: an invoice row is flagged as a duplicate iff some other invoice
row has both the same rounded amount and the same text, and the flag is
symmetric: if row `j` makes row `i` a duplicate then `j` is flagged too. -/
theorem duplicate_flag_iff_and_symm (rows : List Row) (i : ℕ)
    (hi : i < (invoiceRows rows).length) :
    (isDupAt (invoiceRows rows) i = true ↔
      ∃ j, j < (invoiceRows rows).length ∧ j ≠ i ∧
        round2 ((rowAt (invoiceRows rows) j).invoice.getD 0) =
          round2 ((rowAt (invoiceRows rows) i).invoice.getD 0) ∧
        (rowAt (invoiceRows rows) j).text = (rowAt (invoiceRows rows) i).text) ∧
    (∀ j, j < (invoiceRows rows).length → j ≠ i →
      dupKeyAt (invoiceRows rows) j = dupKeyAt (invoiceRows rows) i →
      isDupAt (invoiceRows rows) i = true ∧ isDupAt (invoiceRows rows) j = true) := by
  have key : ∀ k l : ℕ, (dupKeyAt (invoiceRows rows) k = dupKeyAt (invoiceRows rows) l) ↔
      (round2 ((rowAt (invoiceRows rows) k).invoice.getD 0) =
        round2 ((rowAt (invoiceRows rows) l).invoice.getD 0) ∧
      (rowAt (invoiceRows rows) k).text = (rowAt (invoiceRows rows) l).text) := by
    intro k l
    unfold dupKeyAt
    exact Prod.mk.injEq _ _ _ _ ▸ Iff.rfl
  have main : ∀ m, m < (invoiceRows rows).length →
      (isDupAt (invoiceRows rows) m = true ↔
        ∃ j, j < (invoiceRows rows).length ∧ j ≠ m ∧
          dupKeyAt (invoiceRows rows) j = dupKeyAt (invoiceRows rows) m) := by
    intro m _
    unfold isDupAt
    simp [List.any_eq_true, List.mem_range]
  constructor
  · rw [main i hi]
    constructor
    · rintro ⟨j, hj, hne, hkey⟩
      exact ⟨j, hj, hne, (key j i).mp hkey⟩
    · rintro ⟨j, hj, hne, hamt, htxt⟩
      exact ⟨j, hj, hne, (key j i).mpr ⟨hamt, htxt⟩⟩
  · intro j hj hne hkey
    constructor
    · exact (main i hi).mpr ⟨j, hj, hne, hkey⟩
    · exact (main j hj).mpr ⟨i, hi, fun h => hne h.symm, hkey.symm⟩

/-- Scenario D of the spec: two invoices of 250 with the same text
"Supplies", and a third invoice of 250 with a different text. -/
def exDupLedger : List Row :=
  [⟨none, "Supplies", none, some 250⟩,
   ⟨none, "Supplies", none, some 250⟩,
   ⟨none, "Equipment", none, some 250⟩]

/-- Witness for C4: on the Scenario D ledger, rows 0 and 1 flag each
other while the amount-only match in row 2 is not flagged. -/
theorem duplicate_flag_iff_and_symm_witness :
    (0 < (invoiceRows exDupLedger).length ∧
      isDupAt (invoiceRows exDupLedger) 0 = true ∧
      isDupAt (invoiceRows exDupLedger) 1 = true) ∧
    isDupAt (invoiceRows exDupLedger) 2 = false := by
  have hlen : (invoiceRows exDupLedger).length = 3 := by
    simp [invoiceRows, exDupLedger]
  have hkey : dupKeyAt (invoiceRows exDupLedger) 1 = dupKeyAt (invoiceRows exDupLedger) 0 := by
    simp [dupKeyAt, rowAt, invoiceRows, exDupLedger]
  have hflag := (duplicate_flag_iff_and_symm exDupLedger 0 (by omega)).2 1
    (by omega) (by omega) hkey
  refine ⟨⟨by omega, hflag.1, hflag.2⟩, ?_⟩
  have h2 : ¬ (isDupAt (invoiceRows exDupLedger) 2 = true) := by
    rw [(duplicate_flag_iff_and_symm exDupLedger 2 (by omega)).1]
    rintro ⟨j, hj, hne, -, htxt⟩
    rw [hlen] at hj
    interval_cases j <;>
      simp_all [rowAt, invoiceRows, exDupLedger]
  simpa using h2

/-- `re.match(r'^R\d+', c)`: the text starts with one letter `R`
followed by at least one digit (prefix match, not anchored at the end). -/
def matchR (s : String) : Bool :=
  match s.data with
  | 'R' :: c :: _ => c.isDigit
  | _ => false

/-- `extract_R` of `finance.py`: keep the candidate texts matching the
reservation-code pattern. -/
def extract_R (codes : List String) : List String := codes.filter matchR

/-- `pos_map` of `finance.py` looked up at rounded amount `a`: the set of
texts of individual reservation rows with strictly positive `Open Items`
whose rounded (row-level) `Open Items` equals `a`
(`reservations[reservations['Open Items']>0].assign(OpenRnd=...)
.groupby('OpenRnd')['Text'].apply(lambda x: list(set(x)))`); a missing
key yields the empty list. -/
def posCandidates (rows : List Row) (a : ℚ) : List String :=
  (((reservationRows rows).filter
      (fun r => decide (0 < r.openItems.getD 0) &&
        decide (round2 (r.openItems.getD 0) = a))).map (fun r => r.text)).dedup

/-- The `Possible R-Codes` column at rounded invoice amount `a`. -/
def possibleRCodes (rows : List Row) (a : ℚ) : List String :=
  extract_R (posCandidates rows a)

/-- The ambiguity flag: an invoice row lands in the "Ambiguous Invoices"
table when it has more than one possible R-code
(`amb[amb['Possible R-Codes'].apply(len)>1]`). -/
def ambFlagged (rows : List Row) (r : Row) : Bool :=
  decide (1 < (possibleRCodes rows (round2 (r.invoice.getD 0))).length)

/-- The "Ambiguous Invoices (matched by $ amount)" table. -/
def ambiguousTable (rows : List Row) : List Row :=
  (invoiceRows rows).filter (fun r => ambFlagged rows r)

/-- The ambiguity candidate set as the spec words it (for comparison
with the code's `posCandidates`): texts of reservation GROUPS with
strictly positive NET amount whose rounded net amount equals the
invoice's rounded amount, restricted to the R-code pattern. -/
def specAmbCandidates (rows : List Row) (a : ℚ) : List String :=
  extract_R ((((reservationRows rows).map (fun r => r.text)).dedup).filter
    (fun t => decide (0 < netAmount rows t) && decide (round2 (netAmount rows t) = a)))

/-- The ambiguity flag as the spec words it: more than one spec-side
candidate. -/
def specAmbFlagged (rows : List Row) (r : Row) : Bool :=
  decide (1 < (specAmbCandidates rows (round2 (r.invoice.getD 0))).length)

/-- A duplicate-free list has more than one element iff it has two
distinct members. -/
theorem one_lt_length_iff_pair {α : Type _} {l : List α} (h : l.Nodup) :
    1 < l.length ↔ ∃ a b, a ≠ b ∧ a ∈ l ∧ b ∈ l := by
  constructor
  · intro hl
    match l, h with
    | a :: b :: t, h =>
      refine ⟨a, b, fun hab => ?_, List.mem_cons_self _ _,
        List.mem_cons_of_mem _ (List.mem_cons_self _ _)⟩
      exact (List.nodup_cons.mp h).1 (hab ▸ List.mem_cons_self _ _)
  · rintro ⟨a, b, hab, ha, hb⟩
    match l with
    | [] => exact absurd ha (List.not_mem_nil _)
    | [x] =>
      rw [List.mem_singleton] at ha hb
      exact absurd (ha.trans hb.symm) hab
    | x :: y :: t => simp [List.length_cons]

/-- The invoice of the C5 counterexample ledger. -/
def exAmbInv : Row := ⟨none, "SUP", none, some 500⟩

/-- C5 counterexample ledger: reservation "R1" has two rows (500 and
600, net 1100), reservation "R2" one row of 500, and one invoice of 500. -/
def exAmbLedger : List Row :=
  [⟨none, "R1", some 500, none⟩, ⟨none, "R1", some 600, none⟩,
   ⟨none, "R2", some 500, none⟩, exAmbInv]

/-- C5 counterexample: the code builds candidates from individual
reservation rows (row-level positive `Open Items`, row-level rounding),
not from group net amounts: the invoice of 500 is flagged by the code
(both "R1" and "R2" have a 500 row) although only one GROUP ("R2") has
rounded net amount 500, so the spec's candidate set has one element and
the claimed equivalence fails. -/
theorem amb_flag_rowlevel_counterexample :
    exAmbInv ∈ invoiceRows exAmbLedger ∧
    ambFlagged exAmbLedger exAmbInv = true ∧
    specAmbFlagged exAmbLedger exAmbInv = false := by
  have hres : reservationRows exAmbLedger =
      [⟨none, "R1", some 500, none⟩, ⟨none, "R1", some 600, none⟩,
       ⟨none, "R2", some 500, none⟩] := by
    simp [reservationRows, exAmbLedger, exAmbInv]
  have hnet1 : netAmount exAmbLedger "R1" = 1100 := by
    simp [netAmount, hres]
    norm_num
  have hnet2 : netAmount exAmbLedger "R2" = 500 := by
    simp [netAmount, hres]
  have hrnd : round2 (exAmbInv.invoice.getD 0) = 500 := by
    simp only [exAmbInv, Option.getD_some]
    norm_num [round2]
  refine ⟨?_, ?_, ?_⟩
  · simp [invoiceRows, exAmbLedger, exAmbInv]
  · have hfil : (reservationRows exAmbLedger).filter
        (fun r => decide (0 < r.openItems.getD 0) &&
          decide (round2 (r.openItems.getD 0) = 500)) =
        [⟨none, "R1", some 500, none⟩, ⟨none, "R2", some 500, none⟩] := by
      rw [hres]
      norm_num [round2]
    simp only [ambFlagged, possibleRCodes, posCandidates, hrnd, hfil]
    decide
  · have htexts : ((reservationRows exAmbLedger).map (fun r => r.text)).dedup =
        ["R1", "R2"] := by
      rw [hres]; decide
    have hfil : (((reservationRows exAmbLedger).map (fun r => r.text)).dedup).filter
        (fun t => decide (0 < netAmount exAmbLedger t) &&
          decide (round2 (netAmount exAmbLedger t) = 500)) = ["R2"] := by
      rw [htexts]
      norm_num [hnet1, hnet2, round2]
    simp only [specAmbFlagged, specAmbCandidates, hrnd, hfil]
    decide

/-- C5 amended: an invoice is flagged ambiguous-by-amount exactly when
two distinct texts exist that match the R-code pattern and are each
carried by some reservation ROW with strictly positive `Open Items`
whose rounded row amount equals the invoice's rounded amount. -/
theorem amb_flag_iff (rows : List Row) (r : Row)
    (_hr : r ∈ invoiceRows rows) :
    ambFlagged rows r = true ↔
      ∃ t1 t2, t1 ≠ t2 ∧
        (matchR t1 = true ∧ ∃ s ∈ reservationRows rows, s.text = t1 ∧
          0 < s.openItems.getD 0 ∧
          round2 (s.openItems.getD 0) = round2 (r.invoice.getD 0)) ∧
        (matchR t2 = true ∧ ∃ s ∈ reservationRows rows, s.text = t2 ∧
          0 < s.openItems.getD 0 ∧
          round2 (s.openItems.getD 0) = round2 (r.invoice.getD 0)) := by
  have hnd : (possibleRCodes rows (round2 (r.invoice.getD 0))).Nodup :=
    (List.nodup_dedup _).filter _
  have hmem : ∀ t, t ∈ possibleRCodes rows (round2 (r.invoice.getD 0)) ↔
      (matchR t = true ∧ ∃ s ∈ reservationRows rows, s.text = t ∧
        0 < s.openItems.getD 0 ∧
        round2 (s.openItems.getD 0) = round2 (r.invoice.getD 0)) := by
    intro t
    unfold possibleRCodes extract_R posCandidates
    simp only [List.mem_filter, List.mem_dedup, List.mem_map,
      Bool.and_eq_true, decide_eq_true_eq]
    constructor
    · rintro ⟨⟨s, ⟨hs, hpos, hrnd⟩, hst⟩, hR⟩
      exact ⟨hR, s, hs, hst, hpos, hrnd⟩
    · rintro ⟨hR, s, hs, hst, hpos, hrnd⟩
      exact ⟨⟨s, ⟨hs, hpos, hrnd⟩, hst⟩, hR⟩
  unfold ambFlagged
  rw [decide_eq_true_iff, one_lt_length_iff_pair hnd]
  constructor
  · rintro ⟨a, b, hab, ha, hb⟩
    exact ⟨a, b, hab, (hmem a).mp ha, (hmem b).mp hb⟩
  · rintro ⟨a, b, hab, ha, hb⟩
    exact ⟨a, b, hab, (hmem a).mpr ha, (hmem b).mpr hb⟩

/-- The invoice of the C5 witness ledger. -/
def exAmbWInv : Row := ⟨none, "SUP2", none, some 500⟩

/-- C5 witness ledger: two distinct positive reservation rows "R10" and
"R20", both of 500, and one invoice of 500. -/
def exAmbWLedger : List Row :=
  [⟨none, "R10", some 500, none⟩, ⟨none, "R20", some 500, none⟩, exAmbWInv]

/-- Witness for the amended C5: the invoice of 500 is flagged, by the
two distinct candidate codes "R10" and "R20". -/
theorem amb_flag_iff_witness :
    ambFlagged exAmbWLedger exAmbWInv = true :=
  (amb_flag_iff exAmbWLedger exAmbWInv
      (by simp [invoiceRows, exAmbWLedger, exAmbWInv])).mpr
    ⟨"R10", "R20", by decide,
      ⟨by decide,
        ⟨none, "R10", some 500, none⟩,
        by simp [reservationRows, exAmbWLedger, exAmbWInv], rfl,
        by norm_num, by simp [exAmbWInv]⟩,
      ⟨by decide,
        ⟨none, "R20", some 500, none⟩,
        by simp [reservationRows, exAmbWLedger, exAmbWInv], rfl,
        by norm_num, by simp [exAmbWInv]⟩⟩

/-- The event list feeding the daily spend series: one `(date, amount)`
pair per invoice row with a parseable posting date
(`invoices.assign(Date=pd.to_datetime(..., errors='coerce'))
.groupby('Date')['Invoice'].sum()`; rows with NaT dates are dropped by
the groupby). -/
def spendEvents (rows : List Row) : List (Int × ℚ) :=
  (invoiceRows rows).filterMap
    (fun r => r.postingDate.map (fun d => (d, r.invoice.getD 0)))

/-- The value at day `d` of a cumulative series built by per-date
grouping, cumulative sum, calendar reindexing with forward fill, and
zero fill (`.groupby('Date').sum().cumsum().reindex(idx, method='ffill')
.fillna(0)`): the forward-filled cumulative value at `d` is the total of
all event amounts dated at or before `d`, and 0 when there is none. -/
def cumAt : List (Int × ℚ) → Int → ℚ
  | [], _ => 0
  | e :: es, d => (if e.1 ≤ d then e.2 else 0) + cumAt es d

/-- `spend_df` evaluated at day `d` (the `Cumulative Spend` series). -/
def cumulativeSpend (rows : List Row) (d : Int) : ℚ := cumAt (spendEvents rows) d

/-- `latest`: the most recent posting date among the reservation rows of
group `t` (`reservations.groupby('Text')['Posting Date'].max()` with
`errors='coerce'` date parsing), `none` when no row of the group has a
parseable date. -/
def latestDate (rows : List Row) (t : String) : Option Int :=
  (((reservationRows rows).filter (fun r => r.text == t)).filterMap
    (fun r => r.postingDate)).max?

/-- The obligation events: each `Uninvoiced` classified group
contributes its net amount at its latest reservation date
(`events = merge(uninv, latest, on='Text')`). -/
def obligationEvents (rows : List Row) : List (Int × ℚ) :=
  ((resOutTexts rows).filter
      (fun t => decide (statusOf rows t = Status.uninvoiced))).filterMap
    (fun t => (latestDate rows t).map (fun d => (d, netAmount rows t)))

/-- `obligations_df` evaluated at day `d` (the `Obligations` series). -/
def cumulativeObligations (rows : List Row) (d : Int) : ℚ :=
  cumAt (obligationEvents rows) d

/-- The calendar index `pd.date_range(start_date, end_date)` as a list
of day numbers. -/
def timelineDays (s e : Int) : List Int :=
  (List.range (e + 1 - s).toNat).map (fun i => s + i)

/-- A cumulative series over nonnegative event amounts is monotone in
the date. -/
theorem cumAt_mono (es : List (Int × ℚ)) (h : ∀ e ∈ es, 0 ≤ e.2)
    {d1 d2 : Int} (hd : d1 ≤ d2) : cumAt es d1 ≤ cumAt es d2 := by
  induction es with
  | nil => simp [cumAt]
  | cons e es ih =>
    have he := h e (List.mem_cons_self _ _)
    have hes : ∀ x ∈ es, 0 ≤ x.2 := fun x hx => h x (List.mem_cons_of_mem _ hx)
    simp only [cumAt]
    apply add_le_add _ (ih hes)
    by_cases h1 : e.1 ≤ d1
    · rw [if_pos h1, if_pos (le_trans h1 hd)]
    · rw [if_neg h1]
      by_cases h2 : e.1 ≤ d2
      · rw [if_pos h2]; exact he
      · rw [if_neg h2]

/-- A cumulative series does not change between `d1` and `d2` when no
event falls in the half-open window `(d1, d2]`. -/
theorem cumAt_congr_of_gap (es : List (Int × ℚ)) {d1 d2 : Int} (hd : d1 ≤ d2)
    (h : ∀ e ∈ es, ¬(d1 < e.1 ∧ e.1 ≤ d2)) : cumAt es d1 = cumAt es d2 := by
  induction es with
  | nil => rfl
  | cons e es ih =>
    have he := h e (List.mem_cons_self _ _)
    have hes := fun x hx => h x (List.mem_cons_of_mem _ hx)
    simp only [cumAt, ih hes]
    congr 1
    by_cases h1 : e.1 ≤ d1
    · rw [if_pos h1, if_pos (le_trans h1 hd)]
    · rw [if_neg h1]
      rw [if_neg (fun h2 => he ⟨lt_of_not_le h1, h2⟩)]

/-- A cumulative series is zero strictly before every event. -/
theorem cumAt_zero_before (es : List (Int × ℚ)) {d : Int}
    (h : ∀ e ∈ es, d < e.1) : cumAt es d = 0 := by
  induction es with
  | nil => rfl
  | cons e es ih =>
    have he := h e (List.mem_cons_self _ _)
    simp only [cumAt, ih (fun x hx => h x (List.mem_cons_of_mem _ hx))]
    rw [if_neg (not_le_of_lt he)]
    simp

/-- A ledger with a credit note: an invoice of 100 on day 1 and a
negative invoice of -100 on day 2, inside the grant window [1, 2]. -/
def exCredit : List Row :=
  [⟨some 1, "BILL", none, some 100⟩, ⟨some 2, "CREDIT", none, some (-100)⟩]

/-- C6 counterexample: with a negative invoice amount (a credit note),
`cumulative_spend` strictly decreases between two consecutive timeline
days, so the series is not monotone without a positivity precondition. -/
theorem cumulative_spend_not_monotone :
    (1 : Int) < 2 ∧ (1 : Int) ∈ timelineDays 1 2 ∧ (2 : Int) ∈ timelineDays 1 2 ∧
    cumulativeSpend exCredit 2 < cumulativeSpend exCredit 1 := by
  have h1 : cumulativeSpend exCredit 1 = 100 := by
    simp [cumulativeSpend, spendEvents, invoiceRows, exCredit, cumAt]
  have h2 : cumulativeSpend exCredit 2 = 0 := by
    simp [cumulativeSpend, spendEvents, invoiceRows, exCredit, cumAt]
  exact ⟨by norm_num, by decide, by decide, by rw [h1, h2]; norm_num⟩

/-- C6 amended: `cumulative_spend` is non-decreasing in the date
provided every invoice amount is nonnegative, and
`cumulative_obligations` is non-decreasing provided every obligation
event amount (the net amount of an `Uninvoiced` group) is nonnegative;
with negative amounts admitted the counterexample above applies.
(Stated for all day numbers, which covers all timeline days.) -/
theorem cumulative_monotone_of_nonneg (rows : List Row) :
    (∀ d1 d2 : Int, d1 ≤ d2 → (∀ r ∈ invoiceRows rows, 0 ≤ r.invoice.getD 0) →
      cumulativeSpend rows d1 ≤ cumulativeSpend rows d2) ∧
    (∀ d1 d2 : Int, d1 ≤ d2 → (∀ e ∈ obligationEvents rows, 0 ≤ e.2) →
      cumulativeObligations rows d1 ≤ cumulativeObligations rows d2) := by
  constructor
  · intro d1 d2 hd hinv
    apply cumAt_mono _ _ hd
    intro e he
    rw [spendEvents, List.mem_filterMap] at he
    obtain ⟨r, hr, hmap⟩ := he
    obtain ⟨d, -, rfl⟩ := Option.map_eq_some'.mp hmap
    exact hinv r hr
  · intro d1 d2 hd hob
    exact cumAt_mono _ hob hd

/-- A ledger with one nonnegative invoice and no reservations, for the
C6 witness. -/
def exPosSpend : List Row := [⟨some 1, "BILL", none, some 100⟩]

/-- Witness for the amended C6 at days 0 ≤ 5 on a nonnegative ledger. -/
theorem cumulative_monotone_of_nonneg_witness :
    cumulativeSpend exPosSpend 0 ≤ cumulativeSpend exPosSpend 5 ∧
    cumulativeObligations exPosSpend 0 ≤ cumulativeObligations exPosSpend 5 :=
  ⟨(cumulative_monotone_of_nonneg exPosSpend).1 0 5 (by norm_num)
      (by simp [invoiceRows, exPosSpend]),
    (cumulative_monotone_of_nonneg exPosSpend).2 0 5 (by norm_num)
      (by simp [obligationEvents, resOutTexts, reservationRows, exPosSpend])⟩

/-- A ledger whose only invoice is dated day 2. -/
def exGap : List Row := [⟨some 2, "BILL", none, some 100⟩]

/-- C7 counterexample: days 1 < 2 have no invoice activity strictly
between them (the open interval (1, 2) is empty), yet the forward-filled
cumulative spend differs, because the activity sits AT day 2: the
forward-fill invariance only holds for the half-open window (d1, d2]. -/
theorem forward_fill_strictly_between_counterexample :
    (1 : Int) < 2 ∧
    (∀ e ∈ spendEvents exGap, ¬((1 : Int) < e.1 ∧ e.1 < 2)) ∧
    cumulativeSpend exGap 1 ≠ cumulativeSpend exGap 2 := by
  have hev : spendEvents exGap = [(2, 100)] := by
    simp [spendEvents, invoiceRows, exGap]
  have h1 : cumulativeSpend exGap 1 = 0 := by
    simp [cumulativeSpend, hev, cumAt]
  have h2 : cumulativeSpend exGap 2 = 100 := by
    simp [cumulativeSpend, hev, cumAt]
  refine ⟨by norm_num, ?_, by rw [h1, h2]; norm_num⟩
  rw [hev]
  intro e he
  rw [List.mem_singleton] at he
  subst he
  norm_num

/-- C7 amended: the forward-filled cumulative spend is unchanged between
`d1 ≤ d2` when no invoice activity falls in the half-open window
`(d1, d2]` (activity at `d2` itself does change the value), and every
day strictly before the first observed activity has cumulative value
zero. -/
theorem forward_fill_of_gap (rows : List Row) :
    (∀ d1 d2 : Int, d1 ≤ d2 →
      (∀ e ∈ spendEvents rows, ¬(d1 < e.1 ∧ e.1 ≤ d2)) →
      cumulativeSpend rows d1 = cumulativeSpend rows d2) ∧
    (∀ d : Int, (∀ e ∈ spendEvents rows, d < e.1) →
      cumulativeSpend rows d = 0) := by
  constructor
  · intro d1 d2 hd h
    exact cumAt_congr_of_gap _ hd h
  · intro d h
    exact cumAt_zero_before _ h

/-- A ledger whose only invoice is dated day 5, for the C7 witness. -/
def exGapW : List Row := [⟨some 5, "BILL", none, some 100⟩]

/-- Witness for the amended C7: with the only activity on day 5, days 1
and 3 carry the same cumulative value, and day 1 carries zero. -/
theorem forward_fill_of_gap_witness :
    cumulativeSpend exGapW 1 = cumulativeSpend exGapW 3 ∧
    cumulativeSpend exGapW 1 = 0 := by
  have hev : spendEvents exGapW = [(5, 100)] := by
    simp [spendEvents, invoiceRows, exGapW]
  constructor
  · apply (forward_fill_of_gap exGapW).1 1 3 (by norm_num)
    rw [hev]
    intro e he
    rw [List.mem_singleton] at he
    subst he
    norm_num
  · apply (forward_fill_of_gap exGapW).2 1
    rw [hev]
    intro e he
    rw [List.mem_singleton] at he
    subst he
    norm_num

/-- Split a character list on the literal separator " to "
(`grant_period.split(' to ')`), accumulator-style. -/
def splitToAux : List Char → List Char → List (List Char)
  | [], acc => [acc.reverse]
  | ' ' :: 't' :: 'o' :: ' ' :: rest, acc => acc.reverse :: splitToAux rest []
  | c :: rest, acc => splitToAux rest (c :: acc)

/-- Split a character list on `'.'` (`%d.%m.%Y` field separation). -/
def splitDotAux : List Char → List Char → List (List Char)
  | [], acc => [acc.reverse]
  | '.' :: rest, acc => acc.reverse :: splitDotAux rest []
  | c :: rest, acc => splitDotAux rest (c :: acc)

/-- Python `str.strip()`: drop surrounding whitespace. -/
def trimChars (cs : List Char) : List Char :=
  ((cs.dropWhile Char.isWhitespace).reverse.dropWhile Char.isWhitespace).reverse

/-- The numeric value of a digit string. -/
def digitsToNat (cs : List Char) : Nat :=
  cs.foldl (fun n c => 10 * n + (c.toNat - 48)) 0

/-- Parse a nonempty all-digit token, `none` otherwise. -/
def parseNatToken (cs : List Char) : Option Nat :=
  if cs ≠ [] ∧ cs.all Char.isDigit then some (digitsToNat cs) else none

/-- A calendar date as parsed from a `%d.%m.%Y` token. -/
structure Date where
  day : Nat
  month : Nat
  year : Nat
deriving DecidableEq, Repr

/-- Gregorian leap-year test. -/
def isLeap (y : Nat) : Bool := (y % 4 == 0 && y % 100 != 0) || y % 400 == 0

/-- Days in a month of the Gregorian calendar. -/
def daysInMonth (m y : Nat) : Nat :=
  if m = 2 then (if isLeap y then 29 else 28)
  else if m = 4 ∨ m = 6 ∨ m = 9 ∨ m = 11 then 30
  else 31

/-- Calendar validity of a day.month.year triple (what
`pd.to_datetime(..., format='%d.%m.%Y')` accepts). -/
def validDate (d m y : Nat) : Bool :=
  decide (1 ≤ y) && decide (1 ≤ m) && decide (m ≤ 12) &&
    decide (1 ≤ d) && decide (d ≤ daysInMonth m y)

/-- `pd.to_datetime(s, format='%d.%m.%Y', dayfirst=True)`: split on dots,
parse the three numeric fields, check calendar validity; `none` models
the parse exception. -/
def parseDMY (cs : List Char) : Option Date :=
  match splitDotAux cs [] with
  | [ds, ms, ys] =>
    match parseNatToken ds, parseNatToken ms, parseNatToken ys with
    | some d, some m, some y => if validDate d m y then some ⟨d, m, y⟩ else none
    | _, _, _ => none
  | _ => none

/-- Lines 101-105 of `finance.py`: split the grant-period string on
" to ", strip both tokens, parse each as a date. Any failure — a token
count other than two (the tuple-unpacking `ValueError`) or a failed date
parse — is caught by the bare `except`, yielding no period. -/
def parsePeriod (s : String) : Option (Date × Date) :=
  match splitToAux s.data [] with
  | [a, b] =>
    match parseDMY (trimChars a), parseDMY (trimChars b) with
    | some d1, some d2 => some (d1, d2)
    | _, _ => none
  | _ => none

/-- Leap days among years `1..y` (proleptic Gregorian). -/
def leapsBefore (y : Nat) : Nat := y / 4 - y / 100 + y / 400

/-- Days of year `y` strictly before month `m`. -/
def daysBeforeMonth (m y : Nat) : Nat :=
  (List.range (m - 1)).foldl (fun a i => a + daysInMonth (i + 1) y) 0

/-- Rata-die day number of a date, so that `pd.Timestamp` subtraction
`(e - s).days` becomes a difference of day numbers. -/
def toDayNumber (dt : Date) : Int :=
  ((365 * (dt.year - 1) + leapsBefore (dt.year - 1) +
    daysBeforeMonth dt.month dt.year + (dt.day - 1) : Nat) : Int)

/-- `total_days = (end_date - start_date).days`. -/
def totalDays (s e : Date) : Int := toDayNumber e - toDayNumber s

/-- `days_left = max(0, (end_date - today).days)`. -/
def daysLeftOf (e today : Date) : Int := max 0 (toDayNumber e - toDayNumber today)

/-- `pct_time_left = days_left/total_days*100 if total_days else None`. -/
def pctTimeLeft (s e today : Date) : Option ℚ :=
  if totalDays s e ≠ 0 then
    some ((daysLeftOf e today : ℚ) / (totalDays s e : ℚ) * 100)
  else none

/-- `x/budget_total*100 if budget_total else None` (the guard of
`pct_used` and `pct_alloc_util`). -/
def pctOf (x budget : ℚ) : Option ℚ :=
  if budget ≠ 0 then some (x / budget * 100) else none

/-- Python `:.1f` formatting of an optional percentage: formatting
`None` raises `TypeError` (there is no guard at the f-string), so a
missing value renders to no output at all; the raise is modeled as
`none`. -/
def fmtPct (x : Option ℚ) : Option String := x.map (fun v => toString v)

/-- The `st.markdown(f"**Time Left:** {days_left} days
({pct_time_left:.1f}% of period)")` line: `none` models the `TypeError`
raised when `pct_time_left` is `None`. -/
def timeLeftLine (s e today : Date) : Option String :=
  (fmtPct (pctTimeLeft s e today)).map
    (fun p => "Time Left: " ++ toString (daysLeftOf e today) ++
      " days (" ++ p ++ "% of period)")

/-- The budget-projection outputs: the remaining-budget timeline and the
summary scalars. -/
structure Projection where
  timeline : List (Int × ℚ × ℚ)
  daysLeft : Int
  pctTimeLeft : Option ℚ
  totalUsed : ℚ
  pctUsed : Option ℚ
  totalAllocUtil : ℚ
  pctAllocUtil : Option ℚ
deriving Repr

/-- Lines 108-142 of `finance.py`: the daily remaining-budget curves
over the grant window plus the summary scalars. -/
def mkProjection (rows : List Row) (budget : ℚ) (s e today : Date) : Projection :=
  let sN := toDayNumber s
  let eN := toDayNumber e
  let used := cumulativeSpend rows eN
  let alloc := used + cumulativeObligations rows eN
  { timeline := (timelineDays sN eN).map (fun d =>
      (d, budget - cumulativeSpend rows d,
        budget - (cumulativeSpend rows d + cumulativeObligations rows d)))
    daysLeft := daysLeftOf e today
    pctTimeLeft := pctTimeLeft s e today
    totalUsed := used
    pctUsed := pctOf used budget
    totalAllocUtil := alloc
    pctAllocUtil := pctOf alloc budget }

/-- The five outputs of one run. -/
structure Outputs where
  pending : List ClassifiedGroup
  duplicates : List Row
  ambiguous : List Row
  allInvoices : List Row
  projection : Option Projection

/-- One full run of the script on a loaded ledger: the four tables are
always produced; the projection section is guarded by the truthiness of
`budget_total` and `grant_period` (line 99, so a `None` or zero budget
and a `None` or empty period skip it) and by period parsing (lines
100-107). -/
def runPipeline (rows : List Row) (budget : Option ℚ) (period : Option String)
    (today : Date) : Outputs :=
  { pending := classifiedTable rows
    duplicates := duplicateTable rows
    ambiguous := ambiguousTable rows
    allInvoices := invoiceRows rows
    projection :=
      match budget, period with
      | some b, some p =>
        if b ≠ 0 ∧ p ≠ "" then
          match parsePeriod p with
          | some (d1, d2) => some (mkProjection rows b d1 d2 today)
          | none => none
        else none
      | _, _ => none }

/-- C8: when the grant-period string does not parse (wrong " to " token
count or a bad date token), the budget projection is entirely absent
while the four other tables are produced exactly as they are from the
ledger alone. -/
theorem projection_absent_of_bad_period (rows : List Row) (budget : Option ℚ)
    (p : String) (today : Date) (h : parsePeriod p = none) :
    (runPipeline rows budget (some p) today).projection = none ∧
    (runPipeline rows budget (some p) today).pending = classifiedTable rows ∧
    (runPipeline rows budget (some p) today).duplicates = duplicateTable rows ∧
    (runPipeline rows budget (some p) today).ambiguous = ambiguousTable rows ∧
    (runPipeline rows budget (some p) today).allInvoices = invoiceRows rows := by
  refine ⟨?_, rfl, rfl, rfl, rfl⟩
  rcases budget with _ | b
  · rfl
  · simp only [runPipeline, h]
    split <;> rfl

/-- Witness for C8: a period string without the " to " delimiter fails
to parse, and the projection of a run on a small ledger is absent while
the invoice table is still produced. -/
theorem projection_absent_of_bad_period_witness :
    parsePeriod "01.01.2024 until 31.12.2024" = none ∧
    (runPipeline [⟨some 1, "BILL9", none, some 42⟩] (some 100)
        (some "01.01.2024 until 31.12.2024") ⟨15, 6, 2024⟩).projection = none ∧
    (runPipeline [⟨some 1, "BILL9", none, some 42⟩] (some 100)
        (some "01.01.2024 until 31.12.2024") ⟨15, 6, 2024⟩).allInvoices =
      [⟨some 1, "BILL9", none, some 42⟩] := by
  have h : parsePeriod "01.01.2024 until 31.12.2024" = none := by decide
  have hrun := projection_absent_of_bad_period [⟨some 1, "BILL9", none, some 42⟩]
    (some 100) "01.01.2024 until 31.12.2024" ⟨15, 6, 2024⟩ h
  refine ⟨h, hrun.1, hrun.2.2.2.2.trans ?_⟩
  simp [invoiceRows]

/-- C9 (documents the code bug): a grant period whose start and end
dates coincide parses fine, gives `total_days = 0`, and the guard
`... if total_days else None` correctly reports `pct_time_left` as
undefined — but the unguarded `:.1f` f-string on line 138 then raises
`TypeError` when formatting `None`, so the run does raise (`none` models
the raised formatting). -/
theorem pct_time_left_zero_denominator_bug :
    parsePeriod "01.01.2024 to 01.01.2024" =
      some (⟨1, 1, 2024⟩, ⟨1, 1, 2024⟩) ∧
    totalDays ⟨1, 1, 2024⟩ ⟨1, 1, 2024⟩ = 0 ∧
    pctTimeLeft ⟨1, 1, 2024⟩ ⟨1, 1, 2024⟩ ⟨15, 6, 2024⟩ = none ∧
    timeLeftLine ⟨1, 1, 2024⟩ ⟨1, 1, 2024⟩ ⟨15, 6, 2024⟩ = none := by
  refine ⟨by decide, by decide, ?_, ?_⟩
  · rw [pctTimeLeft, if_neg (by decide)]
  · rw [timeLeftLine, pctTimeLeft, if_neg (by decide)]
    rfl

end Finance
